import Mathlib

/-!
# LANCast stream-lifecycle orchestrator: a shallow embedding

This file embeds the core of the LANCast server (a single-streamer LAN
video broadcast relay) in Lean 4 and proves properties of its
specification against that embedding.

Embedded modules:
* `src/server/state.js`   — the `AppState` class (stream + viewer registry);
* `src/server/rtmp.js`    — the `prePublish` admission handler;
* `src/server/transcoder.js` — the exit/crash/stop handling around the
  external transcode process;
* `src/server/websocket.js`  — the heartbeat tick and pong handling.

Modelling conventions:
* JS `Date` timestamps are `Nat` (milliseconds); operations that read the
  clock take an explicit `now : Nat` argument.
* `crypto.randomUUID()` is modelled by a fresh-id counter `nextId : Nat`:
  the generated id is `nextId` and the counter is bumped, which captures
  the freshness/uniqueness contract of UUID generation.
* The JS `Map` of viewer sessions is an insertion-ordered association
  list (`Map.set` of a fresh key appends; `Map.delete` removes the single
  entry with that key; `Map.get` + in-place mutation updates the single
  matching entry).
* Event-emitter notifications are returned as an explicit list of
  emitted events (`Notif`); the stream-change payload (a status snapshot)
  is not constrained by any claim here and is omitted from the event.
* The constant field `id: 'live'` of the JS stream object is omitted.
-/

namespace LANCast

/-- Status of the singleton stream (`state.js`, `Stream.status`). -/
inductive StreamStatus
  | offline
  | live
deriving DecidableEq, Repr

/-- The singleton stream entity (`state.js`).  Fields that are absent on
the JS object while offline are `none`. -/
structure Stream where
  status : StreamStatus
  publisherIP : Option String := none
  resolution : Option String := none
  bitrate : Option Nat := none
  startTime : Option Nat := none
deriving DecidableEq, Repr

/-- The stream value `\x7bid:'live', status:'offline'\x7d` that `AppState`
holds initially, after `stopStream`, and after `cleanup`. -/
def offlineStream : Stream := { status := .offline }

/-- A viewer session (`state.js`, `ViewerSession`).  The WebSocket
back-reference is not modelled: it is only used for sending, never for
admission logic. -/
structure Session where
  id : Nat
  connectedAt : Nat
  lastPing : Nat
  quality : String
deriving DecidableEq, Repr

/-- A notification emitted through the `AppState` event system:
`streamChange` (payload: status snapshot, unconstrained here) or
`viewerChange` carrying `getViewerCount()`. -/
inductive Notif
  | streamChange
  | viewerChange (count : Nat)
deriving DecidableEq, Repr

/-- The `AppState` of `state.js`: the stream, the viewer-session map
(as an insertion-ordered list), the fresh-id counter standing for the
UUID generator, and `config.limits.maxViewers`. -/
structure AppState where
  stream : Stream
  viewers : List Session
  nextId : Nat
  maxViewers : Nat
deriving DecidableEq, Repr

/-- A fresh `AppState` as built by the constructor: offline stream,
empty viewer map. -/
def freshState (maxV : Nat) : AppState :=
  { stream := offlineStream, viewers := [], nextId := 0, maxViewers := maxV }

/-- JS string-or-default `s || d`: an absent or empty string is falsy. -/
def strOr (o : Option String) (d : String) : String :=
  match o with
  | none => d
  | some s => if s = "" then d else s

/-- JS number-or-default `n || d` for non-negative numbers: absent or
zero is falsy. -/
def natOr (o : Option Nat) (d : Nat) : Nat :=
  match o with
  | none => d
  | some n => if n = 0 then d else n

/-- Metadata passed to `startStream` (as produced by
`extractMetadata` in `rtmp.js`; fields may be absent). -/
structure PublishMetadata where
  publisherIP : String
  resolution : Option String := none
  bitrate : Option Nat := none
deriving DecidableEq, Repr

/-- The typed failure of `startStream` (`throw new Error('Stream already
active')` in `state.js`). -/
inductive StreamError
  | alreadyLive
deriving DecidableEq, Repr

/-- `AppState.startStream` (`state.js` lines 61–76).  Throwing is
modelled by returning `.error .alreadyLive` with the state unchanged
(the JS method throws before any assignment). -/
def startStream (st : AppState) (m : PublishMetadata) (now : Nat) :
    Except StreamError Unit × AppState × List Notif :=
  if st.stream.status = .live then
    (.error .alreadyLive, st, [])
  else
    let st' := { st with stream :=
      { status := .live
        publisherIP := some m.publisherIP
        resolution := some (strOr m.resolution "unknown")
        bitrate := some (natOr m.bitrate 0)
        startTime := some now } }
    (.ok (), st', [.streamChange])

/-- `AppState.stopStream` (`state.js` lines 81–88): unconditionally
resets the stream object to the offline value and emits a
stream-change notification. -/
def stopStream (st : AppState) : AppState × List Notif :=
  ({ st with stream := offlineStream }, [.streamChange])

/-- Partial metadata passed to `updateStreamMetadata`. -/
structure UpdateMetadata where
  resolution : Option String := none
  bitrate : Option Nat := none
deriving DecidableEq, Repr

/-- JS truthiness of `metadata.resolution && metadata.resolution !==
'unknown'`: present, non-empty, and not the `"unknown"` sentinel. -/
def resolutionPresent (o : Option String) : Bool :=
  match o with
  | none => false
  | some r => r ≠ "" && r ≠ "unknown"

/-- JS truthiness of `metadata.bitrate && metadata.bitrate > 0`:
present and positive. -/
def bitratePresent (o : Option Nat) : Bool :=
  match o with
  | none => false
  | some b => 0 < b

/-- `AppState.updateStreamMetadata` (`state.js` lines 96–116), called
`refreshMetadata` in the specification: no-op unless live; writes each
present non-sentinel field and emits a stream-change notification iff
at least one field was written. -/
def updateStreamMetadata (st : AppState) (m : UpdateMetadata) :
    AppState × List Notif :=
  if st.stream.status ≠ .live then
    (st, [])
  else
    let resWritten := resolutionPresent m.resolution
    let bitWritten := bitratePresent m.bitrate
    let stream' := { st.stream with
      resolution := if resWritten then m.resolution else st.stream.resolution
      bitrate := if bitWritten then m.bitrate else st.stream.bitrate }
    ({ st with stream := stream' },
     if resWritten || bitWritten then [.streamChange] else [])

/-- `AppState.canStream` (`state.js`): true iff no stream is active. -/
def canStream (st : AppState) : Bool :=
  st.stream.status = .offline

/-- `AppState.addViewer` (`state.js` lines 155–172): capacity
check-and-insert; the returned session carries a fresh id from the
UUID generator (modelled by the `nextId` counter). -/
def addViewer (st : AppState) (now : Nat) :
    Option Session × AppState × List Notif :=
  if st.maxViewers ≤ st.viewers.length then
    (none, st, [])
  else
    let s : Session :=
      { id := st.nextId, connectedAt := now, lastPing := now, quality := "1080p" }
    let st' := { st with viewers := st.viewers ++ [s], nextId := st.nextId + 1 }
    (some s, st', [.viewerChange st'.viewers.length])

/-- `AppState.removeViewer` (`state.js` lines 178–183): delete the
session with the given id (if any) and emit the new count. -/
def removeViewer (st : AppState) (id : Nat) : AppState × List Notif :=
  if st.viewers.any (fun s => s.id == id) then
    let st' := { st with viewers := st.viewers.eraseP (fun s => s.id == id) }
    (st', [.viewerChange st'.viewers.length])
  else
    (st, [])

/-- Update the single map entry with key `id` (the JS `Map.get` +
in-place field mutation); no-op when the key is absent. -/
def updateById (id : Nat) (f : Session → Session) : List Session → List Session
  | [] => []
  | s :: rest => if s.id = id then f s :: rest else s :: updateById id f rest

/-- `AppState.updateViewerQuality` (`state.js` lines 190–195): set the
session's quality if the id is known; emits nothing. -/
def updateViewerQuality (st : AppState) (id : Nat) (q : String) :
    AppState × List Notif :=
  ({ st with viewers := updateById id (fun s => { s with quality := q }) st.viewers }, [])

/-- `AppState.updateViewerPing` (`state.js` lines 201–206): refresh the
session's lastPing if the id is known; emits nothing. -/
def updateViewerPing (st : AppState) (id : Nat) (now : Nat) :
    AppState × List Notif :=
  ({ st with viewers := updateById id (fun s => { s with lastPing := now }) st.viewers }, [])

/-- `AppState.getViewerCount` (`state.js`). -/
def getViewerCount (st : AppState) : Nat :=
  st.viewers.length

/-! ## PublishGate: the `prePublish` handler of `rtmp.js` -/

/-- JS `String.prototype.split('/')`: split into segments at every
slash, keeping empty segments (`"/live/key"` yields
`["", "live", "key"]`, `""` yields `[""]`). -/
def splitSlash : List Char → List (List Char)
  | [] => [[]]
  | c :: rest =>
    match splitSlash rest with
    | [] => [[]]
    | seg :: segs => if c = '/' then [] :: seg :: segs else (c :: seg) :: segs

/-- The segment list of a stream path, as JS `streamPath.split('/')`. -/
def pathParts (s : String) : List String :=
  (splitSlash s.data).map (fun seg => String.mk seg)

/-- The acceptance condition of the `prePublish` handler
(`rtmp.js` lines 49–76).  The handler splits the stream path on `/` and
rejects when `pathParts.length < 3 || pathParts[1] !== 'live' ||
!pathParts[2]`, then rejects when `!appState.canStream()`; otherwise it
accepts. -/
def prePublishAccepts (streamPath : String) (st : AppState) : Bool :=
  let parts := pathParts streamPath
  if parts.length < 3 || parts.getD 1 "" != "live" || parts.getD 2 "" == "" then
    false
  else if !canStream st then
    false
  else
    true

/-- The `prePublish` handler as a state transformer: it reads
`canStream` and calls the external `session.reject()` on rejection, but
contains no assignment to any `AppState` field, so the embedded handler
returns the state unchanged alongside its decision. -/
def prePublishHandler (streamPath : String) (st : AppState) :
    Bool × AppState :=
  (prePublishAccepts streamPath st, st)

/-- Modelled from the spec: the publish-path shape required by the
specification of the pre-publish check — "a non-empty application
segment and a non-empty stream-key segment" (nothing more).  Used to
compare the specified acceptance condition with the code's. -/
def specPathShapeOk (streamPath : String) : Bool :=
  let parts := pathParts streamPath
  parts.getD 1 "" != "" && parts.getD 2 "" != ""

/-! ## ProcessSupervisor: exit, crash and stop handling of `transcoder.js`

The module-level mutable globals of `transcoder.js` (`ffmpegProcess`,
`isStoppingTranscoder`, and the registered `onCrashCallback`) become the
fields of `TransState`.  Filesystem cleanup (`cleanupHlsFiles`) and the
crash-observer invocation are recorded as counters/lists in
`TransEffects` so that "performed exactly once" is expressible. -/

/-- The mutable module state of `transcoder.js`: whether a process
handle is held (`ffmpegProcess !== null`), the `isStoppingTranscoder`
guard flag, whether `stopTranscoder` has registered its `once('close')`
handler, and whether an `onCrashCallback` is registered. -/
structure TransState where
  hasProcess : Bool
  isStopping : Bool
  stopOnceRegistered : Bool
  cbRegistered : Bool
deriving DecidableEq, Repr

/-- Observable side effects of the transcoder exit paths:
how many times `cleanupHlsFiles()` ran, and the arguments of
`onCrashCallback` invocations. -/
structure TransEffects where
  cleanups : Nat
  crashCalls : List Int
deriving DecidableEq, Repr

/-- Sequencing of effects. -/
def TransEffects.append (a b : TransEffects) : TransEffects :=
  { cleanups := a.cleanups + b.cleanups, crashCalls := a.crashCalls ++ b.crashCalls }

/-- The `close` handler registered by `startTranscoder`
(`transcoder.js` lines 530–546): snapshot the guard flag, drop the
process handle, and — when the exit was not an expected stop and the
code is non-zero — run the crash path: `stopStream` on the shared state
only if it still reports live, clean up the HLS files, and invoke the
crash observer with the exit code. -/
def startCloseHandler (code : Int) (app : AppState) (t : TransState) :
    AppState × TransState × List Notif × TransEffects :=
  let wasExpectedStop := t.isStopping
  let t' := { t with hasProcess := false }
  if !wasExpectedStop && code != 0 then
    let (app', notifs) :=
      if app.stream.status = .live then stopStream app else (app, [])
    (app', t', notifs,
      { cleanups := 1, crashCalls := if t.cbRegistered then [code] else [] })
  else
    (app, t', [], { cleanups := 0, crashCalls := [] })

/-- The `once('close')` handler registered by `stopTranscoder`
(`transcoder.js` lines 598–605): clear the process handle, reset the
guard flag, and clean up the HLS files.  (The cancellation of the
force-kill timer is not modelled; no claim depends on it.) -/
def stopOnceHandler (t : TransState) : TransState × TransEffects :=
  ({ t with hasProcess := false, isStopping := false, stopOnceRegistered := false },
   { cleanups := 1, crashCalls := [] })

/-- A single process `close` event.  Node's `EventEmitter` invokes
listeners in registration order: the handler from `startTranscoder`
(registered at spawn) runs first, then the `once` handler from
`stopTranscoder` when one was registered. -/
def processClose (code : Int) (app : AppState) (t : TransState) :
    AppState × TransState × List Notif × TransEffects :=
  let (app', t', notifs, e1) := startCloseHandler code app t
  if t'.stopOnceRegistered then
    let (t'', e2) := stopOnceHandler t'
    (app', t'', notifs, e1.append e2)
  else
    (app', t', notifs, e1)

/-- `stopTranscoder` (`transcoder.js` lines 574–606), up to the point
where it waits for the process to exit: when no process is held and the
guard flag is clear it only cleans up files; when the guard flag is
already set it does nothing; otherwise it sets the guard flag and
registers the `once('close')` handler (the SIGTERM/SIGKILL signalling
itself is external). -/
def stopTranscoder (t : TransState) : TransState × TransEffects :=
  if !t.hasProcess || t.isStopping then
    if !t.isStopping then
      (t, { cleanups := 1, crashCalls := [] })
    else
      (t, { cleanups := 0, crashCalls := [] })
  else
    ({ t with isStopping := true, stopOnceRegistered := true },
     { cleanups := 0, crashCalls := [] })

/-! ## ViewerRegistry heartbeat (`websocket.js`)

`startHeartbeat` runs a periodic tick over the connected channels:
`if (ws.isAlive === false) return ws.terminate(); ws.isAlive = false;
ws.ping();` and the `pong` handler sets `ws.isAlive = true`.  We model
the fate of one channel as a fold over a trace of tick/pong events. -/

/-- An event observed by one channel: a heartbeat tick or a pong
response from the client. -/
inductive HBEvent
  | tick
  | pong
deriving DecidableEq, Repr

/-- The liveness bookkeeping of one channel: the `ws.isAlive` flag and
whether the channel has been force-closed (`ws.terminate()`). -/
structure ChannelState where
  isAlive : Bool
  closed : Bool
deriving DecidableEq, Repr

/-- One step of the heartbeat protocol as implemented
(`websocket.js` lines 146–158 and the `pong` handler at line 64):
a tick terminates a channel whose flag is down, otherwise lowers the
flag and pings; a pong raises the flag.  A closed channel sees no
further events. -/
def hbStep (c : ChannelState) : HBEvent → ChannelState
  | .tick =>
    if c.closed then c
    else if !c.isAlive then { c with closed := true }
    else { c with isAlive := false }
  | .pong =>
    if c.closed then c
    else { c with isAlive := true }

/-- A channel starts with `isAlive = true` (set in
`handleConnection`). -/
def hbInit : ChannelState := { isAlive := true, closed := false }

/-- The fate of a channel after a trace of tick/pong events. -/
def runHB (events : List HBEvent) : ChannelState :=
  events.foldl hbStep hbInit

/-- Modelled from the spec: the two-strike heartbeat state the
specification describes — "a channel is marked presumed-dead unless it
has responded to a liveness probe since the previous tick" and "a
channel presumed-dead on two consecutive ticks is force-closed". -/
structure SpecChannelState where
  responded : Bool
  deadStreak : Nat
  closed : Bool
deriving DecidableEq, Repr

/-- Modelled from the spec: one step of the specified two-strike
heartbeat.  At a tick, a channel that has not responded since the
previous tick increments its presumed-dead streak and is force-closed
once the streak reaches two consecutive ticks; a response resets the
streak. -/
def specHbStep (c : SpecChannelState) : HBEvent → SpecChannelState
  | .tick =>
    if c.closed then c
    else if c.responded then { c with responded := false, deadStreak := 0 }
    else if c.deadStreak + 1 ≥ 2 then { c with deadStreak := c.deadStreak + 1, closed := true }
    else { c with deadStreak := c.deadStreak + 1, responded := false }
  | .pong =>
    if c.closed then c
    else { c with responded := true }

/-- Modelled from the spec: a fresh channel counts as having responded
(it just connected). -/
def specHbInit : SpecChannelState := { responded := true, deadStreak := 0, closed := false }

/-- Modelled from the spec: the fate of a channel under the specified
two-strike heartbeat. -/
def runSpecHB (events : List HBEvent) : SpecChannelState :=
  events.foldl specHbStep specHbInit

/-! ## Viewer-operation sequences (for the capacity/uniqueness invariant) -/

/-- A viewer-registry operation: an `addViewer` call (with the
connection time) or a `removeViewer` call (with the target id). -/
inductive VOp
  | add (now : Nat)
  | remove (id : Nat)
deriving DecidableEq, Repr

/-- Apply one viewer operation to the state (discarding the returned
session and notifications). -/
def vstep (st : AppState) : VOp → AppState
  | .add now => (addViewer st now).2.1
  | .remove id => (removeViewer st id).1

/-- The state reached from a fresh `AppState` after a sequence of
viewer operations. -/
def runVOps (maxV : Nat) (ops : List VOp) : AppState :=
  ops.foldl vstep (freshState maxV)

/-- The registry invariant maintained by the viewer operations: every
held id is below the fresh-id counter, ids are pairwise distinct, and
the session count is within capacity. -/
def ViewerInv (st : AppState) : Prop :=
  (∀ s ∈ st.viewers, s.id < st.nextId) ∧
    (st.viewers.map Session.id).Nodup ∧
    st.viewers.length ≤ st.maxViewers

/-- A concrete live state used to instantiate theorems: a publisher at
10.0.0.5 streaming 1280x720 at 3000 kbps since t=50. -/
def liveDemo : AppState :=
  { stream :=
      { status := .live, publisherIP := some "10.0.0.5",
        resolution := some "1280x720", bitrate := some 3000, startTime := some 50 },
    viewers := [], nextId := 0, maxViewers := 10 }

theorem viewerInv_fresh (maxV : Nat) : ViewerInv (freshState maxV) := by
  refine ⟨?_, ?_, ?_⟩ <;> simp [freshState]

theorem viewerInv_addViewer (st : AppState) (now : Nat) (h : ViewerInv st) :
    ViewerInv (addViewer st now).2.1 := by
  obtain ⟨hlt, hnd, hlen⟩ := h
  unfold addViewer
  by_cases hcap : st.maxViewers ≤ st.viewers.length
  · simpa [hcap] using ⟨hlt, hnd, hlen⟩
  · simp only [hcap, if_false]
    refine ⟨?_, ?_, ?_⟩
    · intro s hs
      rcases List.mem_append.1 hs with h1 | h2
      · exact Nat.lt_succ_of_lt (hlt s h1)
      · simp only [List.mem_singleton] at h2
        subst h2
        exact Nat.lt_succ_self _
    · rw [List.map_append, List.nodup_append]
      refine ⟨hnd, by simp, ?_⟩
      intro a ha
      simp only [List.mem_map] at ha
      obtain ⟨s, hs, rfl⟩ := ha
      simp only [List.map_cons, List.map_nil, List.mem_singleton]
      exact Nat.ne_of_lt (hlt s hs)
    · rw [List.length_append]
      simpa using Nat.lt_of_not_le hcap

theorem viewerInv_removeViewer (st : AppState) (id : Nat) (h : ViewerInv st) :
    ViewerInv (removeViewer st id).1 := by
  obtain ⟨hlt, hnd, hlen⟩ := h
  unfold removeViewer
  by_cases hmem : st.viewers.any (fun s => s.id == id)
  · simp only [hmem, if_true]
    have hsub : (st.viewers.eraseP (fun s => s.id == id)).Sublist st.viewers :=
      List.eraseP_sublist _
    refine ⟨?_, ?_, ?_⟩
    · intro s hs
      exact hlt s (hsub.mem hs)
    · exact (hsub.map Session.id).nodup hnd
    · exact le_trans hsub.length_le hlen
  · simpa [hmem] using ⟨hlt, hnd, hlen⟩

theorem viewerInv_vstep (st : AppState) (op : VOp) (h : ViewerInv st) :
    ViewerInv (vstep st op) := by
  cases op with
  | add now => exact viewerInv_addViewer st now h
  | remove id => exact viewerInv_removeViewer st id h

theorem viewerInv_runVOps (maxV : Nat) (ops : List VOp) :
    ViewerInv (runVOps maxV ops) := by
  suffices h : ∀ (st : AppState), ViewerInv st → ViewerInv (ops.foldl vstep st) from
    h (freshState maxV) (viewerInv_fresh maxV)
  induction ops with
  | nil => intro st h; exact h
  | cons op rest ih =>
    intro st h
    exact ih (vstep st op) (viewerInv_vstep st op h)

theorem vstep_maxViewers (st : AppState) (op : VOp) :
    (vstep st op).maxViewers = st.maxViewers := by
  cases op with
  | add now =>
    unfold vstep addViewer
    by_cases h : st.maxViewers ≤ st.viewers.length <;> simp [h]
  | remove id =>
    unfold vstep removeViewer
    by_cases h : st.viewers.any (fun s => s.id == id) <;> simp [h]

theorem runVOps_maxViewers (maxV : Nat) (ops : List VOp) :
    (runVOps maxV ops).maxViewers = maxV := by
  suffices h : ∀ (st : AppState), (ops.foldl vstep st).maxViewers = st.maxViewers from
    h (freshState maxV)
  induction ops with
  | nil => intro st; rfl
  | cons op rest ih =>
    intro st
    rw [List.foldl_cons, ih (vstep st op), vstep_maxViewers]

theorem updateById_not_mem (id : Nat) (f : Session → Session) (l : List Session)
    (h : ∀ s ∈ l, s.id ≠ id) : updateById id f l = l := by
  induction l with
  | nil => rfl
  | cons s rest ih =>
    unfold updateById
    rw [if_neg (h s (List.mem_cons_self s rest)),
      ih (fun x hx => h x (List.mem_cons_of_mem s hx))]

/-- **C1** For every sequence of addViewer/removeViewer operations from
a fresh state with capacity `maxViewers`, the viewer-session count
never exceeds `maxViewers` and held ids stay pairwise distinct;
`addViewer` below capacity creates and inserts a session with a fresh
id not held by any current session, emits a viewer-change notification
with the new count, and returns the session; `addViewer` at or above
capacity returns failure with no state mutation and no notification. -/
theorem claim1_viewer_capacity_and_freshness (maxV : Nat) (ops : List VOp) :
    (runVOps maxV ops).viewers.length ≤ maxV ∧
    ((runVOps maxV ops).viewers.map Session.id).Nodup ∧
    (∀ now, (runVOps maxV ops).viewers.length < maxV →
      (∀ s ∈ (runVOps maxV ops).viewers, s.id ≠ (runVOps maxV ops).nextId) ∧
      addViewer (runVOps maxV ops) now =
        (some { id := (runVOps maxV ops).nextId, connectedAt := now,
                lastPing := now, quality := "1080p" },
         { runVOps maxV ops with
            viewers := (runVOps maxV ops).viewers ++
              [{ id := (runVOps maxV ops).nextId, connectedAt := now,
                 lastPing := now, quality := "1080p" }],
            nextId := (runVOps maxV ops).nextId + 1 },
         [.viewerChange ((runVOps maxV ops).viewers.length + 1)])) ∧
    (∀ now, maxV ≤ (runVOps maxV ops).viewers.length →
      addViewer (runVOps maxV ops) now = (none, runVOps maxV ops, [])) := by
  obtain ⟨hlt, hnd, hlen⟩ := viewerInv_runVOps maxV ops
  have hmax := runVOps_maxViewers maxV ops
  refine ⟨by omega, hnd, ?_, ?_⟩
  · intro now hcap
    have hcap' : ¬ (runVOps maxV ops).maxViewers ≤ (runVOps maxV ops).viewers.length := by
      rw [hmax]; omega
    refine ⟨fun s hs => Nat.ne_of_lt (hlt s hs), ?_⟩
    simp [addViewer, hcap']
  · intro now hcap
    have hcap' : (runVOps maxV ops).maxViewers ≤ (runVOps maxV ops).viewers.length := by
      rw [hmax]; exact hcap
    simp [addViewer, hcap']

theorem claim1_witness :
    addViewer (runVOps 2 [VOp.add 0]) 5 =
      (some { id := (runVOps 2 [VOp.add 0]).nextId, connectedAt := 5,
              lastPing := 5, quality := "1080p" },
       { runVOps 2 [VOp.add 0] with
          viewers := (runVOps 2 [VOp.add 0]).viewers ++
            [{ id := (runVOps 2 [VOp.add 0]).nextId, connectedAt := 5,
               lastPing := 5, quality := "1080p" }],
          nextId := (runVOps 2 [VOp.add 0]).nextId + 1 },
       [.viewerChange ((runVOps 2 [VOp.add 0]).viewers.length + 1)]) :=
  ((claim1_viewer_capacity_and_freshness 2 [VOp.add 0]).2.2.1 5 (by decide)).2

/-- **C2, counterexample** The claim says a `stopStream` call on an
already-offline state is a no-op that emits no notification, so two
successive calls emit at most one notification.  On the code, a fresh
(offline) state's `stopStream` emits a stream-change notification, and
two successive calls emit two. -/
theorem claim2_counterexample :
    (freshState 10).stream.status = .offline ∧
    (stopStream (freshState 10)).2 ≠ [] ∧
    (stopStream (freshState 10)).2.length +
      (stopStream (stopStream (freshState 10)).1).2.length = 2 := by
  decide

/-- **C2, amended** `stopStream` unconditionally resets the stream to
the offline value and emits exactly one stream-change notification on
every call, including when the stream is already offline; it is
idempotent on state (the second of two successive calls leaves the
state unchanged) but not on notifications (each call emits one, so two
calls in a row produce two). -/
theorem claim2_amended_stopStream (st : AppState) :
    (stopStream st).1.stream = offlineStream ∧
    (stopStream st).1.viewers = st.viewers ∧
    (stopStream st).2 = [.streamChange] ∧
    stopStream (stopStream st).1 = stopStream st := by
  refine ⟨rfl, rfl, rfl, rfl⟩

/-- **C3** `startStream` on a live state fails with the typed
AlreadyLive error and leaves the whole state (status, publisher
address, resolution, bitrate, start time, and everything else)
unchanged, emitting nothing; on an offline state it succeeds, sets the
status to live, stores the metadata (with the JS `||` defaults), stamps
the start time, and emits a stream-change notification. -/
theorem claim3_startStream (st : AppState) (m : PublishMetadata) (now : Nat) :
    (st.stream.status = .live →
      startStream st m now = (.error .alreadyLive, st, [])) ∧
    (st.stream.status = .offline →
      startStream st m now =
        (.ok (),
         { st with stream :=
            { status := .live
              publisherIP := some m.publisherIP
              resolution := some (strOr m.resolution "unknown")
              bitrate := some (natOr m.bitrate 0)
              startTime := some now } },
         [.streamChange])) := by
  constructor
  · intro h
    simp [startStream, h]
  · intro h
    have h' : st.stream.status ≠ .live := by rw [h]; intro hc; cases hc
    simp [startStream, h']

theorem claim3_witness :
    startStream liveDemo
        { publisherIP := "10.0.0.7", resolution := some "1920x1080", bitrate := some 5000 } 100 =
      (.error .alreadyLive, liveDemo, []) ∧
    startStream (freshState 3)
        { publisherIP := "10.0.0.7", resolution := some "1920x1080", bitrate := some 5000 } 100 =
      (.ok (),
       { freshState 3 with stream :=
          { status := .live
            publisherIP := some "10.0.0.7"
            resolution := some (strOr (some "1920x1080") "unknown")
            bitrate := some (natOr (some 5000) 0)
            startTime := some 100 } },
       [.streamChange]) :=
  ⟨(claim3_startStream liveDemo _ 100).1 rfl,
   (claim3_startStream (freshState 3) _ 100).2 rfl⟩

/-- **C4, counterexample** The claim says the pre-publish check accepts
iff the path has a non-empty application segment and a non-empty
stream-key segment and no stream is live.  The path `/app/key` has both
segments non-empty and the fresh state is offline, yet the handler
rejects it: the code additionally requires the application segment to
be exactly `live`. -/
theorem claim4_counterexample :
    specPathShapeOk "/app/key" = true ∧
    canStream (freshState 10) = true ∧
    prePublishAccepts "/app/key" (freshState 10) = false := by
  decide

/-- **C4, amended** The pre-publish handler accepts iff the path splits
into at least three slash-separated parts, the application segment (the
part after the leading slash) is exactly `live`, the stream-key segment
is non-empty, and no stream is currently live; and the handler itself
never mutates the shared state (any rejection happens with the state
untouched). -/
theorem claim4_amended_prePublish (streamPath : String) (st : AppState) :
    (prePublishHandler streamPath st).2 = st ∧
    ((prePublishHandler streamPath st).1 = true ↔
      (3 ≤ (pathParts streamPath).length ∧
       (pathParts streamPath).getD 1 "" = "live" ∧
       (pathParts streamPath).getD 2 "" ≠ "" ∧
       canStream st = true)) := by
  refine ⟨rfl, ?_⟩
  show prePublishAccepts streamPath st = true ↔ _
  unfold prePublishAccepts
  by_cases hc1 : (decide ((pathParts streamPath).length < 3) ||
      (pathParts streamPath).getD 1 "" != "live" ||
      (pathParts streamPath).getD 2 "" == "") = true
  · rw [if_pos hc1]
    refine iff_of_false (by simp) ?_
    simp only [Bool.or_eq_true, decide_eq_true_eq, bne_iff_ne, beq_iff_eq] at hc1
    rintro ⟨ha, hb, hcn, -⟩
    rcases hc1 with (h | h) | h
    · omega
    · exact h hb
    · exact hcn h
  · rw [if_neg hc1]
    have hc1' : ¬ (pathParts streamPath).length < 3 ∧
        (pathParts streamPath).getD 1 "" = "live" ∧
        (pathParts streamPath).getD 2 "" ≠ "" := by
      simpa [not_or, and_assoc] using hc1
    obtain ⟨h3, hlive, hkey⟩ := hc1'
    by_cases hc2 : (!canStream st) = true
    · rw [if_pos hc2]
      refine iff_of_false (by simp) ?_
      have hcs : canStream st = false := by simpa using hc2
      rintro ⟨_, _, _, hd⟩
      rw [hd] at hcs
      cases hcs
    · rw [if_neg hc2]
      have hcs : canStream st = true := by simpa using hc2
      exact iff_of_true rfl ⟨by omega, hlive, hkey, hcs⟩

/-- **C5** When the transcode process exits with a non-zero code, the
stop guard flag is clear (stop() was not the initiator), and a crash
observer is registered, the close handler reports stream-offline to the
shared state only when it still reports live (leaving an
already-offline state untouched and emitting nothing in that case),
performs the artifact cleanup exactly once, and invokes the crash
observer with the exit code. -/
theorem claim5_crash_path (code : Int) (app : AppState) (t : TransState)
    (hstop : t.isStopping = false) (honce : t.stopOnceRegistered = false)
    (hcode : code ≠ 0) (hcb : t.cbRegistered = true) :
    (app.stream.status = .live →
      processClose code app t =
        ((stopStream app).1, { t with hasProcess := false }, [.streamChange],
         { cleanups := 1, crashCalls := [code] })) ∧
    (app.stream.status = .offline →
      processClose code app t =
        (app, { t with hasProcess := false }, [],
         { cleanups := 1, crashCalls := [code] })) := by
  have hcode' : (code != 0) = true := by simpa using hcode
  constructor
  · intro h
    simp [processClose, startCloseHandler, hstop, honce, hcode', hcb, h, stopStream]
  · intro h
    have h' : app.stream.status ≠ .live := by rw [h]; intro hc; cases hc
    simp [processClose, startCloseHandler, hstop, honce, hcode', hcb, h', stopStream]

theorem claim5_witness :
    processClose (-5) liveDemo
        { hasProcess := true, isStopping := false,
          stopOnceRegistered := false, cbRegistered := true } =
      ((stopStream liveDemo).1,
       { hasProcess := false, isStopping := false,
         stopOnceRegistered := false, cbRegistered := true },
       [.streamChange],
       { cleanups := 1, crashCalls := [-5] }) :=
  (claim5_crash_path (-5) liveDemo
    { hasProcess := true, isStopping := false,
      stopOnceRegistered := false, cbRegistered := true }
    rfl rfl (by decide) rfl).1 rfl

/-- **C6** When `stopTranscoder` runs while the process is alive and
then the process exits, exactly one of the two exit paths performs the
artifact cleanup: `stopTranscoder` itself cleans nothing (it only sets
the guard flag and registers its close handler), and on the exit event
the guard flag makes the crash path skip its cleanup, its
state-offline report, and its crash-observer call, while the stop
path's close handler performs the single cleanup — so the exit event is
cleaned up exactly once, whatever the exit code and shared state. -/
theorem claim6_stop_then_close_cleanup_once (code : Int) (app : AppState)
    (t : TransState) (hproc : t.hasProcess = true) (hstop : t.isStopping = false) :
    stopTranscoder t =
      ({ t with isStopping := true, stopOnceRegistered := true },
       { cleanups := 0, crashCalls := [] }) ∧
    processClose code app (stopTranscoder t).1 =
      (app,
       { t with hasProcess := false, isStopping := false, stopOnceRegistered := false },
       [], { cleanups := 1, crashCalls := [] }) := by
  have h1 : stopTranscoder t =
      ({ t with isStopping := true, stopOnceRegistered := true },
       { cleanups := 0, crashCalls := [] }) := by
    simp [stopTranscoder, hproc, hstop]
  refine ⟨h1, ?_⟩
  rw [h1]
  simp [processClose, startCloseHandler, stopOnceHandler, TransEffects.append]

theorem claim6_witness :
    stopTranscoder
        { hasProcess := true, isStopping := false,
          stopOnceRegistered := false, cbRegistered := true } =
      ({ hasProcess := true, isStopping := true,
         stopOnceRegistered := true, cbRegistered := true },
       { cleanups := 0, crashCalls := [] }) ∧
    processClose 1 liveDemo
        (stopTranscoder
          { hasProcess := true, isStopping := false,
            stopOnceRegistered := false, cbRegistered := true }).1 =
      (liveDemo,
       { hasProcess := false, isStopping := false,
         stopOnceRegistered := false, cbRegistered := true },
       [], { cleanups := 1, crashCalls := [] }) :=
  claim6_stop_then_close_cleanup_once 1 liveDemo
    { hasProcess := true, isStopping := false,
      stopOnceRegistered := false, cbRegistered := true } rfl rfl

/-- **C7** `refreshMetadata` (code name `updateStreamMetadata`) is a
no-op when the stream is offline; while live it never regresses
known-good data: an absent resolution, an empty or `"unknown"`
resolution, or an absent or zero bitrate leaves the stored value
untouched, and a present non-sentinel field is the only thing written
(the status stays live). -/
theorem claim7_refreshMetadata_no_regress (st : AppState) (m : UpdateMetadata) :
    (st.stream.status = .offline → updateStreamMetadata st m = (st, [])) ∧
    (st.stream.status = .live →
      (resolutionPresent m.resolution = false →
        (updateStreamMetadata st m).1.stream.resolution = st.stream.resolution) ∧
      (bitratePresent m.bitrate = false →
        (updateStreamMetadata st m).1.stream.bitrate = st.stream.bitrate) ∧
      (resolutionPresent m.resolution = true →
        (updateStreamMetadata st m).1.stream.resolution = m.resolution) ∧
      (bitratePresent m.bitrate = true →
        (updateStreamMetadata st m).1.stream.bitrate = m.bitrate) ∧
      (updateStreamMetadata st m).1.stream.status = .live ∧
      (updateStreamMetadata st m).1.stream.publisherIP = st.stream.publisherIP ∧
      (updateStreamMetadata st m).1.stream.startTime = st.stream.startTime) := by
  constructor
  · intro h
    simp [updateStreamMetadata, h]
  · intro h
    refine ⟨?_, ?_, ?_, ?_, ?_, ?_, ?_⟩ <;>
      first
        | (intro hb; simp [updateStreamMetadata, h, hb])
        | simp [updateStreamMetadata, h]

theorem claim7_witness :
    (updateStreamMetadata liveDemo { resolution := some "unknown", bitrate := some 0 }).1.stream.resolution
        = liveDemo.stream.resolution ∧
    (updateStreamMetadata liveDemo { resolution := some "unknown", bitrate := some 0 }).1.stream.bitrate
        = liveDemo.stream.bitrate ∧
    updateStreamMetadata (freshState 4) { resolution := some "1920x1080", bitrate := some 100 }
        = (freshState 4, []) :=
  ⟨((claim7_refreshMetadata_no_regress liveDemo _).2 rfl).1 rfl,
   ((claim7_refreshMetadata_no_regress liveDemo _).2 rfl).2.1 rfl,
   (claim7_refreshMetadata_no_regress (freshState 4) _).1 rfl⟩

/-- **C8, counterexample** The claim says a live-state metadata refresh
whose present non-sentinel fields all equal the stored values emits no
notification.  On the code, refreshing `liveDemo` (resolution
`1280x720`) with that same resolution changes nothing — the resulting
state equals the old one — yet a stream-change notification is
emitted: the code tracks "a field was written", not "a field changed
value". -/
theorem claim8_counterexample :
    liveDemo.stream.status = .live ∧
    liveDemo.stream.resolution = some "1280x720" ∧
    (updateStreamMetadata liveDemo { resolution := some "1280x720", bitrate := none }).1 = liveDemo ∧
    (updateStreamMetadata liveDemo { resolution := some "1280x720", bitrate := none }).2 ≠ [] := by
  decide

/-- **C8, amended** While live, `refreshMetadata` emits a stream-change
notification iff at least one field of the partial update is present
and non-sentinel (i.e. iff at least one field is written), regardless
of whether the written value differs from the stored one. -/
theorem claim8_amended_notification (st : AppState) (m : UpdateMetadata)
    (h : st.stream.status = .live) :
    (updateStreamMetadata st m).2 =
      if resolutionPresent m.resolution || bitratePresent m.bitrate then
        [Notif.streamChange]
      else [] := by
  simp [updateStreamMetadata, h]

theorem claim8_witness :
    (updateStreamMetadata liveDemo { resolution := none, bitrate := some 500 }).2 =
      if resolutionPresent none || bitratePresent (some 500) then
        [Notif.streamChange]
      else [] :=
  claim8_amended_notification liveDemo { resolution := none, bitrate := some 500 } rfl

/-- **C9, counterexample** The claim says a channel is force-closed
only after being presumed-dead on two consecutive ticks, so a channel
that has missed only one full inter-tick interval is not yet closed.
Trace: the channel is ticked, answers the probe (pong), then stays
silent across a single full interval.  The code closes it at the very
next tick, while the specified two-strike rule (modelled by
`runSpecHB`) does not close it yet. -/
theorem claim9_counterexample :
    (runHB [HBEvent.tick, HBEvent.pong, HBEvent.tick, HBEvent.tick]).closed = true ∧
    (runSpecHB [HBEvent.tick, HBEvent.pong, HBEvent.tick, HBEvent.tick]).closed = false := by
  decide

/-- **C9, amended** The heartbeat is single-strike over full
intervals: a tick force-closes a (not yet closed) channel iff its
liveness flag is down, i.e. iff it has not ponged since the previous
tick; a surviving tick lowers the flag, a pong raises it, and a closed
channel stays closed.  Hence a channel is closed at the first tick it
has not responded since the previous tick (between one and two
intervals after its last response), not after two missed intervals. -/
theorem claim9_amended_heartbeat (es : List HBEvent) :
    ((runHB es).closed = false →
      (runHB (es ++ [HBEvent.tick])).closed = !(runHB es).isAlive) ∧
    ((runHB es).closed = false → (runHB es).isAlive = true →
      (runHB (es ++ [HBEvent.tick])).isAlive = false ∧
      (runHB (es ++ [HBEvent.tick])).closed = false) ∧
    ((runHB es).closed = false →
      (runHB (es ++ [HBEvent.pong])).isAlive = true ∧
      (runHB (es ++ [HBEvent.pong])).closed = false) ∧
    ((runHB es).closed = true →
      ∀ e, runHB (es ++ [e]) = runHB es) := by
  have happ : ∀ e, runHB (es ++ [e]) = hbStep (runHB es) e := by
    intro e
    simp [runHB, List.foldl_append]
  refine ⟨?_, ?_, ?_, ?_⟩
  · intro h
    rw [happ]
    cases hA : (runHB es).isAlive <;> simp [hbStep, h, hA]
  · intro h hA
    rw [happ]
    simp [hbStep, h, hA]
  · intro h
    rw [happ]
    simp [hbStep, h]
  · intro h e
    rw [happ]
    cases e <;> simp [hbStep, h]

theorem claim9_witness :
    (runHB ([HBEvent.tick] ++ [HBEvent.tick])).closed = !(runHB [HBEvent.tick]).isAlive :=
  (claim9_amended_heartbeat [HBEvent.tick]).1 (by decide)

/-- **C10** Stream and viewer operations are mutually frame-disjoint:
`startStream`, `stopStream`, and `refreshMetadata` never touch the
viewer registry (sessions survive a live-to-offline transition), and
`addViewer`, `removeViewer`, `updateViewerQuality`, and
`updateViewerPing` never touch the stream or its metadata; moreover
the two viewer-update operations with an id absent from the registry
leave the whole state unchanged and emit nothing. -/
theorem claim10_frame_disjoint (st : AppState) (m : PublishMetadata)
    (u : UpdateMetadata) (now idv : Nat) (q : String) :
    ((startStream st m now).2.1.viewers = st.viewers ∧
     (startStream st m now).2.1.nextId = st.nextId ∧
     (startStream st m now).2.1.maxViewers = st.maxViewers) ∧
    ((stopStream st).1.viewers = st.viewers ∧
     (stopStream st).1.nextId = st.nextId ∧
     (stopStream st).1.maxViewers = st.maxViewers) ∧
    ((updateStreamMetadata st u).1.viewers = st.viewers ∧
     (updateStreamMetadata st u).1.nextId = st.nextId ∧
     (updateStreamMetadata st u).1.maxViewers = st.maxViewers) ∧
    (addViewer st now).2.1.stream = st.stream ∧
    (removeViewer st idv).1.stream = st.stream ∧
    (updateViewerQuality st idv q).1.stream = st.stream ∧
    (updateViewerPing st idv now).1.stream = st.stream ∧
    ((∀ s ∈ st.viewers, s.id ≠ idv) →
      updateViewerQuality st idv q = (st, []) ∧
      updateViewerPing st idv now = (st, [])) := by
  refine ⟨?_, ⟨rfl, rfl, rfl⟩, ?_, ?_, ?_, rfl, rfl, ?_⟩
  · by_cases h : st.stream.status = .live <;> simp [startStream, h]
  · by_cases h : st.stream.status ≠ .live <;> simp [updateStreamMetadata, h]
  · by_cases h : st.maxViewers ≤ st.viewers.length <;> simp [addViewer, h]
  · by_cases h : st.viewers.any (fun s => s.id == idv) <;> simp [removeViewer, h]
  · intro h
    constructor
    · simp [updateViewerQuality, updateById_not_mem idv _ st.viewers h]
    · simp [updateViewerPing, updateById_not_mem idv _ st.viewers h]

theorem claim10_witness :
    updateViewerQuality (runVOps 2 [VOp.add 0]) 99 "720p" = (runVOps 2 [VOp.add 0], []) ∧
    updateViewerPing (runVOps 2 [VOp.add 0]) 99 77 = (runVOps 2 [VOp.add 0], []) :=
  (claim10_frame_disjoint (runVOps 2 [VOp.add 0])
    { publisherIP := "10.0.0.9" } { resolution := none, bitrate := none }
    77 99 "720p").2.2.2.2.2.2.2 (by decide)

end LANCast
